import Mathlib

/-!
Shallow embedding of the task-lifecycle core of the JS-TaskManager
repository: the `TaskStatus` value object, the `Task` entity
(src/domain/entities/Task.js) and the statistics aggregation of
`GetStatisticsForDisplayUseCase._calculateStatistics`.

Modelling conventions:
* JS `Date` values are integer millisecond timestamps (`ℤ`); every method
  that reads the wall clock (`new Date()`) takes the current instant `now`
  as an explicit argument, sampled once per operation.
* JS strings are Lean `String`s; `String.prototype.trim` is embedded as
  `jsTrim` (whitespace stripping at both ends).
* A thrown `DomainException` is an `Except.error` carrying the exception
  kind and message; methods that cannot throw return plain values.
* Optional / nullable JS values are `Option`; parameters that distinguish
  `undefined` from `null` from a value (the composite `Task.update`) use
  the three-valued `JSArg`.
* `Math.round` is embedded as `jsRound` (round half towards +infinity),
  with exact rational arithmetic in place of IEEE doubles.
-/

namespace JSTaskManager

/-- JS `Math.round x = ⌊x + 1/2⌋` (half-way cases round towards +∞). -/
def jsRound (x : ℚ) : ℤ := ⌊x + 1/2⌋

/-- Whitespace recognised by `String.prototype.trim` (ASCII range). -/
def jsWhitespaceChar (c : Char) : Bool :=
  c = ' ' || c = '\t' || c = '\n' || c = '\r' || c = '\x0b' || c = '\x0c'

/-- Embedding of JS `String.prototype.trim`: drop leading and trailing
whitespace. -/
def jsTrim (s : String) : String :=
  ⟨((s.data.dropWhile jsWhitespaceChar).reverse.dropWhile jsWhitespaceChar).reverse⟩

/-- The two kinds of `DomainException`
(src/domain/exceptions/DomainException.js): `validationError` and
`businessRuleViolation`, each carrying the human-readable message. -/
inductive DomainError where
  | validationError (msg : String)
  | businessRuleViolation (msg : String)
deriving DecidableEq, Repr

deriving instance DecidableEq for Except

namespace TaskStatus

/-- TaskStatus.SCHEDULED. -/
def SCHEDULED : String := "SCHEDULED"

/-- TaskStatus.PENDING. -/
def PENDING : String := "PENDING"

/-- TaskStatus.IN_PROGRESS. -/
def IN_PROGRESS : String := "IN_PROGRESS"

/-- TaskStatus.COMPLETED. -/
def COMPLETED : String := "COMPLETED"

/-- TaskStatus.FAILED. -/
def FAILED : String := "FAILED"

/-- TaskStatus.CANCELLED. -/
def CANCELLED : String := "CANCELLED"

/-- Modelled from the spec: the current six-status
`TaskStatus.getAllStatuses` is missing from src/ — the copy of
src/domain/valueobjects/TaskStatus.js under src/ is a stale pre-update
version holding only the three tags PENDING, IN_PROGRESS, COMPLETED,
while src/TASK_STATUS_UPDATE.md records that the file was updated with
the additional tags, and src/domain/entities/Task.js, the display use
cases and the SQL schema (CK_Tasks_Status) all require the six-tag
vocabulary. Per the spec: an ordered list of the six tags. -/
def getAllStatuses : List String :=
  [SCHEDULED, PENDING, IN_PROGRESS, COMPLETED, FAILED, CANCELLED]

/-- Modelled from the spec: `TaskStatus.isValid` over the six-tag list
(the stale copy under src/ has the same body, membership of the status in
`getAllStatuses`, over its shorter list). -/
def isValid (status : String) : Bool := getAllStatuses.contains status

/-- Embedding of the stale three-status `getAllStatuses` actually found in
src/domain/valueobjects/TaskStatus.js (kept for comparison). -/
def getAllStatusesLegacy : List String := [PENDING, IN_PROGRESS, COMPLETED]

/-- Embedding of the stale three-status `isValid` found in
src/domain/valueobjects/TaskStatus.js. -/
def isValidLegacy (status : String) : Bool := getAllStatusesLegacy.contains status

end TaskStatus

/-- The Task entity's stored fields (src/domain/entities/Task.js). -/
structure Task where
  id : Option String
  title : String
  description : String
  status : String
  userId : String
  startDate : ℤ
  deadline : Option ℤ
  createdAt : ℤ
  updatedAt : ℤ
deriving DecidableEq, Repr

namespace Task

/-- Task.prototype.validateTitle: rejects a falsy title (modelled by the
empty string), a title that trims to nothing, and a title longer than 200
characters. -/
def validateTitle (title : String) : Except DomainError Unit :=
  if title = "" then
    .error (.validationError ("Task title is required"))
  else if (jsTrim title).length = 0 then
    .error (.validationError ("Task title cannot be empty"))
  else if title.length > 200 then
    .error (.validationError ("Task title must not exceed 200 characters"))
  else
    .ok ()

/-- Task.prototype.validateUserId: rejects a falsy user id (modelled by the
empty string). -/
def validateUserId (userId : String) : Except DomainError Unit :=
  if userId = "" then
    .error (.validationError ("User ID is required for task"))
  else
    .ok ()

/-- Task.prototype.validateStatus: rejects a status not accepted by
`TaskStatus.isValid`. -/
def validateStatus (status : String) : Except DomainError Unit :=
  if TaskStatus.isValid status then
    .ok ()
  else
    .error (.validationError
      ("Invalid task status. Must be one of: " ++
        String.intercalate (", ") TaskStatus.getAllStatuses))

/-- Task.prototype.validateDeadline: nothing to check for a missing
deadline; otherwise the deadline must not lie before the given start date
(date-format failures are unrepresentable for integer instants). -/
def validateDeadline (deadline : Option ℤ) (startDate : Option ℤ) :
    Except DomainError Unit :=
  match deadline with
  | none => .ok ()
  | some d =>
    match startDate with
    | none => .ok ()
    | some s =>
      if d < s then
        .error (.validationError ("Deadline cannot be before start date"))
      else
        .ok ()

/-- The validated Task constructor. `startDate = none` covers both an
omitted and an unparsable start date (either way the effective start date
falls back to the current instant). `description = none` covers a falsy
description argument. -/
def create (now : ℤ) (title : String) (description : Option String)
    (userId : String) (startDate : Option ℤ) (deadline : Option ℤ) :
    Except DomainError Task := do
  validateTitle title
  validateUserId userId
  let effectiveStartDate := startDate.getD now
  if deadline.isSome then
    validateDeadline deadline (some effectiveStartDate)
  else
    pure ()
  .ok {
    id := none
    title := jsTrim title
    description := (description.map jsTrim).getD ("")
    status := if effectiveStartDate > now then TaskStatus.SCHEDULED else TaskStatus.PENDING
    userId := userId
    startDate := effectiveStartDate
    deadline := deadline
    createdAt := now
    updatedAt := now }

/-- Task.reconstruct: rehydration from storage, no validation. -/
def reconstruct (id : Option String) (title description status userId : String)
    (startDate : ℤ) (deadline : Option ℤ) (createdAt updatedAt : ℤ) : Task :=
  { id := id, title := title, description := description, status := status
    userId := userId, startDate := startDate, deadline := deadline
    createdAt := createdAt, updatedAt := updatedAt }

/-- Task.prototype.updateTitle. -/
def updateTitle (now : ℤ) (newTitle : String) (t : Task) :
    Except DomainError Task := do
  validateTitle newTitle
  .ok { t with title := jsTrim newTitle, updatedAt := now }

/-- Task.prototype.updateDescription: a falsy argument (modelled by `none`)
clears the description to the empty string; otherwise the trimmed text is
stored. Never throws. -/
def updateDescription (now : ℤ) (newDescription : Option String) (t : Task) : Task :=
  { t with description := (newDescription.map jsTrim).getD (""), updatedAt := now }

/-- Task.prototype.updateStatus: validates the target status, then applies
the three business rules (no COMPLETED→PENDING, no manual transition INTO
FAILED from a non-FAILED state, no manual CANCELLED), then stores the new
status and bumps updatedAt. -/
def updateStatus (now : ℤ) (newStatus : String) (t : Task) :
    Except DomainError Task := do
  validateStatus newStatus
  if t.status = TaskStatus.COMPLETED ∧ newStatus = TaskStatus.PENDING then
    .error (.businessRuleViolation
      ("Cannot change completed task back to pending. Set to In Progress first."))
  else if newStatus = TaskStatus.FAILED ∧ t.status ≠ TaskStatus.FAILED then
    .error (.businessRuleViolation
      ("Cannot manually set task to FAILED status. It is auto-assigned when deadline passes."))
  else if newStatus = TaskStatus.CANCELLED then
    .error (.businessRuleViolation
      ("Cannot manually set task to CANCELLED. Use cancelTask() method instead."))
  else
    .ok { t with status := newStatus, updatedAt := now }

/-- Task.prototype.updateStartDate: rejects a start date after an existing
deadline, otherwise stores it and bumps updatedAt. -/
def updateStartDate (now : ℤ) (newStartDate : ℤ) (t : Task) :
    Except DomainError Task :=
  match t.deadline with
  | some d =>
    if newStartDate > d then
      .error (.validationError ("Start date cannot be after deadline"))
    else
      .ok { t with startDate := newStartDate, updatedAt := now }
  | none => .ok { t with startDate := newStartDate, updatedAt := now }

/-- Task.prototype.updateDeadline: a falsy argument clears the deadline;
otherwise the new deadline is validated against the current start date and
stored. -/
def updateDeadline (now : ℤ) (newDeadline : Option ℤ) (t : Task) :
    Except DomainError Task := do
  match newDeadline with
  | some d =>
    validateDeadline (some d) (some t.startDate)
    .ok { t with deadline := some d, updatedAt := now }
  | none => .ok { t with deadline := none, updatedAt := now }

/-- A JS argument as the composite `Task.update` distinguishes it:
`undefined` (parameter not supplied), `null`, or a value. -/
inductive JSArg (α : Type) where
  | undef
  | null
  | val (a : α)
deriving DecidableEq, Repr

/-- One step of the composite update: apply `f` to the running state unless
an earlier step already failed; a failure keeps the state reached so far
(JS mutates `this` in place, so a thrown step leaves the earlier fields
already overwritten). -/
def step (acc : Task × Option DomainError) (f : Task → Except DomainError Task) :
    Task × Option DomainError :=
  match acc with
  | (t, some e) => (t, some e)
  | (t, none) =>
    match f t with
    | .ok t' => (t', none)
    | .error e => (t, some e)

/-- Task.prototype.update: applies the provided fields in source order
(title, description, status, startDate, deadline), each through its
validated setter; the first thrown error stops the sequence, leaving the
earlier mutations in place. On full success updatedAt is bumped once more
at the end. -/
def update (now : ℤ) (title : JSArg String) (description : JSArg String)
    (status : JSArg String) (startDate : JSArg ℤ) (deadline : JSArg ℤ)
    (t : Task) : Task × Option DomainError :=
  let s0 : Task × Option DomainError := (t, none)
  let s1 := match title with
    | .val v => step s0 (updateTitle now v)
    | _ => s0
  let s2 := match description with
    | .undef => s1
    | .null => step s1 (fun u => .ok (updateDescription now none u))
    | .val v => step s1 (fun u => .ok (updateDescription now (some v) u))
  let s3 := match status with
    | .val v => step s2 (updateStatus now v)
    | _ => s2
  let s4 := match startDate with
    | .val v => step s3 (updateStartDate now v)
    | _ => s3
  let s5 := match deadline with
    | .undef => s4
    | .null => step s4 (updateDeadline now none)
    | .val v => step s4 (updateDeadline now (some v))
  match s5 with
  | (u, none) => ({ u with updatedAt := now }, none)
  | (u, some e) => (u, some e)

/-- Task.prototype.markAsInProgress. -/
def markAsInProgress (now : ℤ) (t : Task) : Except DomainError Task :=
  if t.status = TaskStatus.COMPLETED then
    .error (.businessRuleViolation ("Cannot restart a completed task"))
  else
    .ok { t with status := TaskStatus.IN_PROGRESS, updatedAt := now }

/-- Task.prototype.markAsCompleted: permitted from any status, including
FAILED (late completion). Never throws. -/
def markAsCompleted (now : ℤ) (t : Task) : Task :=
  { t with status := TaskStatus.COMPLETED, updatedAt := now }

/-- Task.prototype.markAsFailed: a no-op when already COMPLETED or already
FAILED (those branches return without touching updatedAt); otherwise
transitions to FAILED. Never throws. -/
def markAsFailed (now : ℤ) (t : Task) : Task :=
  if t.status = TaskStatus.COMPLETED then t
  else if t.status = TaskStatus.FAILED then t
  else { t with status := TaskStatus.FAILED, updatedAt := now }

/-- Task.prototype.reopen: COMPLETED → IN_PROGRESS, FAILED → error,
anything else → PENDING. -/
def reopen (now : ℤ) (t : Task) : Except DomainError Task :=
  if t.status = TaskStatus.COMPLETED then
    .ok { t with status := TaskStatus.IN_PROGRESS, updatedAt := now }
  else if t.status = TaskStatus.FAILED then
    .error (.businessRuleViolation
      ("Cannot reopen a failed task. Create a new task instead."))
  else
    .ok { t with status := TaskStatus.PENDING, updatedAt := now }

/-- Task.prototype.cancelTask: a no-op when already CANCELLED, otherwise
transitions to CANCELLED (soft delete). Never throws. -/
def cancelTask (now : ℤ) (t : Task) : Task :=
  if t.status = TaskStatus.CANCELLED then t
  else { t with status := TaskStatus.CANCELLED, updatedAt := now }

/-- Task.prototype.shouldBeMarkedAsFailed. -/
def shouldBeMarkedAsFailed (now : ℤ) (t : Task) : Bool :=
  match t.deadline with
  | none => false
  | some d =>
    if t.status = TaskStatus.COMPLETED then false
    else if t.status = TaskStatus.FAILED then false
    else if t.status = TaskStatus.CANCELLED then false
    else now > d

/-- Task.prototype.shouldTransitionToPending. -/
def shouldTransitionToPending (now : ℤ) (t : Task) : Bool :=
  if t.status ≠ TaskStatus.SCHEDULED then false
  else t.startDate ≤ now

/-- Task.prototype.getProgressPercentage: null without a deadline; 100 when
COMPLETED; otherwise 100 once the deadline is reached, 0 before the start
date, and the rounded elapsed-time fraction in between. -/
def getProgressPercentage (now : ℤ) (t : Task) : Option ℤ :=
  match t.deadline with
  | none => none
  | some dl =>
    if t.status = TaskStatus.COMPLETED then some 100
    else if now ≥ dl then some 100
    else if now ≤ t.startDate then some 0
    else some (jsRound (((now - t.startDate : ℤ) : ℚ) / ((dl - t.startDate : ℤ) : ℚ) * 100))

/-- Task.prototype.isOverdue. -/
def isOverdue (now : ℤ) (t : Task) : Bool :=
  match t.deadline with
  | none => false
  | some dl =>
    if t.status = TaskStatus.COMPLETED then false
    else now > dl

end Task

/-- The raw statistics record built by
`GetStatisticsForDisplayUseCase._calculateStatistics` (src/unnamed/part_009). -/
structure RawStats where
  totalTasks : ℕ
  scheduledTasks : ℕ
  pendingTasks : ℕ
  inProgressTasks : ℕ
  completedTasks : ℕ
  failedTasks : ℕ
  cancelledTasks : ℕ
  overdueTasks : ℕ
  completionRate : ℤ
deriving DecidableEq, Repr

/-- The per-task auto-update pass run by the statistics use case before
counting: SCHEDULED → PENDING via `updateStatus` once the start date is
reached, then the deadline-passed FAILED check via `markAsFailed`. A
thrown error propagates out of the whole pass, as in JS. -/
def autoUpdateTask (now : ℤ) (t : Task) : Except DomainError Task := do
  let t1 ←
    if t.shouldTransitionToPending now then
      t.updateStatus now TaskStatus.PENDING
    else
      pure t
  let t2 :=
    if t1.shouldBeMarkedAsFailed now then
      t1.markAsFailed now
    else
      t1
  pure t2

/-- GetStatisticsForDisplayUseCase._calculateStatistics over the fetched
task list: run the auto-update pass on every task, then count by status
(CANCELLED tasks excluded from the active total, PENDING folded into the
in-progress bucket) and compute the completion rate with FAILED tasks
excluded from the denominator. -/
def calculateStatistics (now : ℤ) (allTasks : List Task) :
    Except DomainError RawStats := do
  let tasks ← allTasks.mapM (autoUpdateTask now)
  let activeTasks := tasks.filter (fun t => t.status ≠ TaskStatus.CANCELLED)
  let totalTasks := activeTasks.length
  let scheduledTasks := (activeTasks.filter (fun t => t.status = TaskStatus.SCHEDULED)).length
  let pendingTasks := (activeTasks.filter (fun t => t.status = TaskStatus.PENDING)).length
  let inProgressTasks := (activeTasks.filter
    (fun t => t.status = TaskStatus.IN_PROGRESS ∨ t.status = TaskStatus.PENDING)).length
  let completedTasks := (activeTasks.filter (fun t => t.status = TaskStatus.COMPLETED)).length
  let failedTasks := (activeTasks.filter (fun t => t.status = TaskStatus.FAILED)).length
  let cancelledTasks := (tasks.filter (fun t => t.status = TaskStatus.CANCELLED)).length
  let overdueTasks := (activeTasks.filter (fun t => t.isOverdue now)).length
  let completableTasksCount : ℤ := (totalTasks : ℤ) - (failedTasks : ℤ)
  let completionRate : ℤ :=
    if completableTasksCount > 0 then
      jsRound (((completedTasks : ℤ) : ℚ) / ((completableTasksCount : ℤ) : ℚ) * 100)
    else
      0
  pure {
    totalTasks := totalTasks
    scheduledTasks := scheduledTasks
    pendingTasks := pendingTasks
    inProgressTasks := inProgressTasks
    completedTasks := completedTasks
    failedTasks := failedTasks
    cancelledTasks := cancelledTasks
    overdueTasks := overdueTasks
    completionRate := completionRate }

/-! ## Concrete data used by the witnesses and counterexamples -/

/-- Field-frame relation between two task states: every stored field except
`status` and `updatedAt` agrees. -/
def TaskFrame (t t2 : Task) : Prop :=
  t2.id = t.id ∧ t2.title = t.title ∧ t2.description = t.description ∧
  t2.userId = t.userId ∧ t2.startDate = t.startDate ∧ t2.deadline = t.deadline ∧
  t2.createdAt = t.createdAt

/-- A task that has already been auto-marked FAILED (as `markAsFailed` or
`reconstruct` from storage produce it). -/
def c1FailedTask : Task :=
  Task.reconstruct (some ("1")) ("Late report") ("") TaskStatus.FAILED ("alice") 0 (some 100) 0 0

/-- A second FAILED task, used to exercise the FAILED-source transitions. -/
def c2FailedTask : Task :=
  Task.reconstruct (some ("2")) ("Quarterly summary") ("") TaskStatus.FAILED ("bob") 0 (some 100) 0 0

/-- The task the validated constructor builds at instant 0 for a start date
5 in the future (so its initial status is SCHEDULED). -/
def c4Task : Task :=
  { id := none
    title := "Trip"
    description := ""
    status := TaskStatus.SCHEDULED
    userId := "u"
    startDate := 5
    deadline := none
    createdAt := 0
    updatedAt := 0 }

/-- Eleven stored tasks of one user: 4 PENDING, 4 COMPLETED, 2 FAILED and
1 CANCELLED, none with a deadline and none still SCHEDULED, so the
auto-update pass leaves them all untouched at instant 0. -/
def c7Tasks : List Task :=
  [Task.reconstruct (some ("t01")) ("Write intro") ("") TaskStatus.PENDING ("eve") 0 none 0 0,
   Task.reconstruct (some ("t02")) ("Write body") ("") TaskStatus.PENDING ("eve") 0 none 0 0,
   Task.reconstruct (some ("t03")) ("Write outro") ("") TaskStatus.PENDING ("eve") 0 none 0 0,
   Task.reconstruct (some ("t04")) ("Review") ("") TaskStatus.PENDING ("eve") 0 none 0 0,
   Task.reconstruct (some ("t05")) ("Plan") ("") TaskStatus.COMPLETED ("eve") 0 none 0 0,
   Task.reconstruct (some ("t06")) ("Outline") ("") TaskStatus.COMPLETED ("eve") 0 none 0 0,
   Task.reconstruct (some ("t07")) ("Research") ("") TaskStatus.COMPLETED ("eve") 0 none 0 0,
   Task.reconstruct (some ("t08")) ("Draft") ("") TaskStatus.COMPLETED ("eve") 0 none 0 0,
   Task.reconstruct (some ("t09")) ("Submit early") ("") TaskStatus.FAILED ("eve") 0 none 0 0,
   Task.reconstruct (some ("t10")) ("Print") ("") TaskStatus.FAILED ("eve") 0 none 0 0,
   Task.reconstruct (some ("t11")) ("Old idea") ("") TaskStatus.CANCELLED ("eve") 0 none 0 0]

/-- The statistics record for `c7Tasks`: 10 active tasks (the CANCELLED one
is excluded), 2 failed, 4 completed, completion rate
round(4 / (10 - 2) * 100) = 50 — the worked example of the spec. -/
def c7Stats : RawStats :=
  { totalTasks := 10
    scheduledTasks := 0
    pendingTasks := 4
    inProgressTasks := 4
    completedTasks := 4
    failedTasks := 2
    cancelledTasks := 1
    overdueTasks := 0
    completionRate := 50 }

/-- A 1001-character description (1001 letters a). -/
def c8LongDescription : String := String.mk (List.replicate 1001 'a')

/-- A COMPLETED task about to receive a composite update whose status part
is rejected. -/
def c9Task : Task :=
  Task.reconstruct (some ("9")) ("Old title") ("notes") TaskStatus.COMPLETED ("dave") 0 (some 100) 0 0

/-! ## Helper lemmas shared by the claim proofs -/

theorem taskFrame_self (t : Task) : TaskFrame t t :=
  ⟨rfl, rfl, rfl, rfl, rfl, rfl, rfl⟩

theorem taskFrame_setStatus (t : Task) (s : String) (n : ℤ) :
    TaskFrame t { t with status := s, updatedAt := n } :=
  ⟨rfl, rfl, rfl, rfl, rfl, rfl, rfl⟩

/-- Rounding a ratio strictly between 0 and 1, scaled to 100, stays inside
the interval from 0 to 100. -/
theorem jsRound_div_bounds (a b : ℤ) (h1 : 0 < a) (h2 : a < b) :
    0 ≤ jsRound ((a : ℚ) / (b : ℚ) * 100) ∧ jsRound ((a : ℚ) / (b : ℚ) * 100) ≤ 100 := by
  have hb : (0 : ℚ) < (b : ℚ) := by exact_mod_cast h1.trans h2
  have ha : (0 : ℚ) < (a : ℚ) := by exact_mod_cast h1
  have hq1 : (0 : ℚ) < (a : ℚ) / (b : ℚ) * 100 := by positivity
  have hq2 : (a : ℚ) / (b : ℚ) * 100 < 100 := by
    have hlt : (a : ℚ) / (b : ℚ) < 1 := (div_lt_one hb).mpr (by exact_mod_cast h2)
    nlinarith
  constructor
  · exact Int.floor_nonneg.mpr (by linarith)
  · have h101 : jsRound ((a : ℚ) / (b : ℚ) * 100) < 101 := by
      unfold jsRound
      exact Int.floor_lt.mpr (by push_cast; linarith)
    omega

/-- Every successful run of the validated constructor yields exactly the
record the constructor builds: trimmed title, trimmed-or-empty description,
SCHEDULED or PENDING by the effective start date, and the effective start
date itself. -/
theorem create_ok_elim (now : ℤ) (title : String) (description : Option String)
    (userId : String) (startDate deadline : Option ℤ) (t : Task)
    (h : Task.create now title description userId startDate deadline = Except.ok t) :
    t = { id := none
          title := jsTrim title
          description := (description.map jsTrim).getD ("")
          status := if startDate.getD now > now then TaskStatus.SCHEDULED else TaskStatus.PENDING
          userId := userId
          startDate := startDate.getD now
          deadline := deadline
          createdAt := now
          updatedAt := now } := by
  rcases h1 : Task.validateTitle title with e | u
  · simp only [Task.create, Bind.bind, Except.bind, h1] at h
    exact absurd h (by simp)
  · rcases h2 : Task.validateUserId userId with e | u2
    · simp only [Task.create, Bind.bind, Except.bind, h1, h2] at h
      exact absurd h (by simp)
    · cases deadline with
      | none =>
        simp only [Task.create, Bind.bind, Except.bind, h1, h2, Option.isSome_none,
          Bool.false_eq_true, if_false, pure, Except.pure, Except.ok.injEq] at h
        exact h.symm
      | some d =>
        rcases h3 : Task.validateDeadline (some d) (some (startDate.getD now)) with e | u3
        · simp only [Task.create, Bind.bind, Except.bind, h1, h2, Option.isSome_some,
            if_true, h3] at h
          exact absurd h (by simp)
        · simp only [Task.create, Bind.bind, Except.bind, h1, h2, Option.isSome_some,
            if_true, h3, Except.ok.injEq] at h
          exact h.symm

/-- Whether the validated constructor succeeds depends only on the title,
the user id and the deadline-versus-start-date check — never on the
description. -/
theorem create_isOk (now : ℤ) (title : String) (description : Option String)
    (userId : String) (startDate deadline : Option ℤ) :
    (Task.create now title description userId startDate deadline).isOk =
      ((Task.validateTitle title).isOk && (Task.validateUserId userId).isOk &&
        (if deadline.isSome then
          Task.validateDeadline deadline (some (startDate.getD now))
        else Except.ok ()).isOk) := by
  rcases h1 : Task.validateTitle title with e | u
  · simp [Task.create, Bind.bind, Except.bind, h1, Except.isOk, Except.toBool]
  · rcases h2 : Task.validateUserId userId with e | u2
    · simp [Task.create, Bind.bind, Except.bind, h1, h2, Except.isOk, Except.toBool]
    · cases deadline with
      | none =>
        simp [Task.create, Bind.bind, Except.bind, h1, h2, pure, Except.pure,
          Except.isOk, Except.toBool]
      | some d =>
        rcases h3 : Task.validateDeadline (some d) (some (startDate.getD now)) with e | u3 <;>
          simp [Task.create, Bind.bind, Except.bind, h1, h2, h3, Except.isOk, Except.toBool]

set_option maxRecDepth 40000 in
/-- Concrete evaluation of the statistics aggregation on `c7Tasks`. -/
theorem c7calc : calculateStatistics 0 c7Tasks = Except.ok c7Stats := by
  have hm : c7Tasks.mapM (autoUpdateTask 0) = Except.ok c7Tasks := by decide
  have h1 : (c7Tasks.filter (fun t => t.status ≠ TaskStatus.CANCELLED)).length = 10 := by
    decide
  have h2 : ((c7Tasks.filter (fun t => t.status ≠ TaskStatus.CANCELLED)).filter
      (fun t => t.status = TaskStatus.SCHEDULED)).length = 0 := by decide
  have h3 : ((c7Tasks.filter (fun t => t.status ≠ TaskStatus.CANCELLED)).filter
      (fun t => t.status = TaskStatus.PENDING)).length = 4 := by decide
  have h4 : ((c7Tasks.filter (fun t => t.status ≠ TaskStatus.CANCELLED)).filter
      (fun t => t.status = TaskStatus.IN_PROGRESS ∨ t.status = TaskStatus.PENDING)).length = 4 := by
    decide
  have h5 : ((c7Tasks.filter (fun t => t.status ≠ TaskStatus.CANCELLED)).filter
      (fun t => t.status = TaskStatus.COMPLETED)).length = 4 := by decide
  have h6 : ((c7Tasks.filter (fun t => t.status ≠ TaskStatus.CANCELLED)).filter
      (fun t => t.status = TaskStatus.FAILED)).length = 2 := by decide
  have h7 : (c7Tasks.filter (fun t => t.status = TaskStatus.CANCELLED)).length = 1 := by decide
  have h8 : ((c7Tasks.filter (fun t => t.status ≠ TaskStatus.CANCELLED)).filter
      (fun t => t.isOverdue 0)).length = 0 := by decide
  simp only [calculateStatistics, Bind.bind, Except.bind, hm, pure, Except.pure,
    h1, h2, h3, h4, h5, h6, h7, h8, c7Stats]
  norm_num [jsRound]

/-! ## The claims -/

/-- C1, as stated, is false at a task already in status FAILED: the guard
in `updateStatus` only fires when the current status is NOT FAILED, so
`updateStatus(FAILED)` on `c1FailedTask` succeeds (idempotently re-storing
FAILED and bumping updatedAt) instead of raising BusinessRuleViolation. -/
theorem c1_failed_task_counterexample :
    c1FailedTask.updateStatus 7 TaskStatus.FAILED =
      Except.ok { c1FailedTask with updatedAt := 7 } := by
  decide

/-- C1 (amended): for every task and instant, `updateStatus` with target
FAILED raises BusinessRuleViolation and leaves the task unchanged exactly
when the current status is not FAILED; when the status is already FAILED
the call succeeds, keeping status FAILED and only bumping updatedAt. -/
theorem c1_updateStatus_failed_is_guarded (t : Task) (now : ℤ) :
    t.updateStatus now TaskStatus.FAILED =
      (if t.status = TaskStatus.FAILED then
        Except.ok { t with status := TaskStatus.FAILED, updatedAt := now }
      else
        Except.error (DomainError.businessRuleViolation
          ("Cannot manually set task to FAILED status. It is auto-assigned when deadline passes."))) := by
  by_cases h : t.status = TaskStatus.FAILED <;>
    simp [Task.updateStatus, Task.validateStatus, TaskStatus.isValid, TaskStatus.getAllStatuses,
      TaskStatus.FAILED, TaskStatus.PENDING, TaskStatus.COMPLETED, TaskStatus.CANCELLED,
      TaskStatus.SCHEDULED, TaskStatus.IN_PROGRESS, Bind.bind, Except.bind, h]

/-- C2, as stated, is false: `updateStatus` has no guard on a FAILED
current status, so after a task is FAILED, `updateStatus(PENDING)`
succeeds (moving it back to PENDING) instead of raising
BusinessRuleViolation. -/
theorem c2_failed_to_pending_counterexample :
    c2FailedTask.updateStatus 9 TaskStatus.PENDING =
      Except.ok { c2FailedTask with status := TaskStatus.PENDING, updatedAt := 9 } := by
  decide

/-- C2 (amended): from a FAILED task the general set-status operation
rejects only the target CANCELLED (with BusinessRuleViolation, as from any
status); each of the five targets SCHEDULED, PENDING, IN_PROGRESS,
COMPLETED and FAILED is accepted — in particular FAILED to COMPLETED (late
completion) is permitted — and after `markAsFailed()` a subsequent
`updateStatus(PENDING)` succeeds, setting the status to PENDING. -/
theorem c2_failed_source_transitions (t : Task) (now : ℤ) :
    (t.status = TaskStatus.FAILED →
      t.updateStatus now TaskStatus.CANCELLED =
        Except.error (DomainError.businessRuleViolation
          ("Cannot manually set task to CANCELLED. Use cancelTask() method instead.")) ∧
      ∀ s, s ∈ [TaskStatus.SCHEDULED, TaskStatus.PENDING, TaskStatus.IN_PROGRESS,
          TaskStatus.COMPLETED, TaskStatus.FAILED] →
        t.updateStatus now s = Except.ok { t with status := s, updatedAt := now }) ∧
    (t.status ≠ TaskStatus.COMPLETED →
      (t.markAsFailed now).updateStatus now TaskStatus.PENDING =
        Except.ok { t with status := TaskStatus.PENDING, updatedAt := now }) := by
  constructor
  · intro h
    constructor
    · simp [Task.updateStatus, Task.validateStatus, TaskStatus.isValid, TaskStatus.getAllStatuses,
        TaskStatus.FAILED, TaskStatus.PENDING, TaskStatus.COMPLETED, TaskStatus.CANCELLED,
        TaskStatus.SCHEDULED, TaskStatus.IN_PROGRESS, Bind.bind, Except.bind, h]
    · intro s hs
      simp only [TaskStatus.FAILED] at h
      fin_cases hs <;>
        simp [Task.updateStatus, Task.validateStatus, TaskStatus.isValid, TaskStatus.getAllStatuses,
          TaskStatus.FAILED, TaskStatus.PENDING, TaskStatus.COMPLETED, TaskStatus.CANCELLED,
          TaskStatus.SCHEDULED, TaskStatus.IN_PROGRESS, Bind.bind, Except.bind, h]
  · intro h
    have hm : t.markAsFailed now =
        (if t.status = TaskStatus.FAILED then t
         else { t with status := TaskStatus.FAILED, updatedAt := now }) := by
      unfold Task.markAsFailed
      rw [if_neg h]
    by_cases hf : t.status = TaskStatus.FAILED
    · rw [hm, if_pos hf]
      simp only [TaskStatus.FAILED] at hf
      simp [Task.updateStatus, Task.validateStatus, TaskStatus.isValid, TaskStatus.getAllStatuses,
        TaskStatus.FAILED, TaskStatus.PENDING, TaskStatus.COMPLETED, TaskStatus.CANCELLED,
        TaskStatus.SCHEDULED, TaskStatus.IN_PROGRESS, Bind.bind, Except.bind, hf]
    · rw [hm, if_neg hf]
      simp [Task.updateStatus, Task.validateStatus, TaskStatus.isValid, TaskStatus.getAllStatuses,
        TaskStatus.FAILED, TaskStatus.PENDING, TaskStatus.COMPLETED, TaskStatus.CANCELLED,
        TaskStatus.SCHEDULED, TaskStatus.IN_PROGRESS, Bind.bind, Except.bind]

/-- C3: `getAllStatuses` is the ordered six-tag list SCHEDULED, PENDING,
IN_PROGRESS, COMPLETED, FAILED, CANCELLED, and `isValid` accepts a value
exactly when it is one of those six tags. -/
theorem c3_taskStatus_six_tags :
    TaskStatus.getAllStatuses =
      ["SCHEDULED", "PENDING", "IN_PROGRESS", "COMPLETED", "FAILED", "CANCELLED"] ∧
    ∀ v : String, TaskStatus.isValid v = true ↔
      (v = "SCHEDULED" ∨ v = "PENDING" ∨ v = "IN_PROGRESS" ∨ v = "COMPLETED" ∨
        v = "FAILED" ∨ v = "CANCELLED") := by
  refine ⟨rfl, fun v => ?_⟩
  simp [TaskStatus.isValid, TaskStatus.getAllStatuses, TaskStatus.SCHEDULED,
    TaskStatus.PENDING, TaskStatus.IN_PROGRESS, TaskStatus.COMPLETED, TaskStatus.FAILED,
    TaskStatus.CANCELLED, List.contains, List.elem_eq_mem]

/-- C4: a task built by the validated constructor carries the effective
start date (the given one, or the creation instant when omitted or
unparsable), and its initial status is SCHEDULED exactly when that
effective start date lies strictly in the future, PENDING otherwise. -/
theorem c4_initial_status_from_startDate (now : ℤ) (title : String)
    (description : Option String) (userId : String) (startDate : Option ℤ)
    (deadline : Option ℤ) (t : Task)
    (h : Task.create now title description userId startDate deadline = Except.ok t) :
    t.startDate = startDate.getD now ∧
    (t.status = TaskStatus.SCHEDULED ↔ now < startDate.getD now) ∧
    (t.status = TaskStatus.PENDING ↔ ¬ now < startDate.getD now) := by
  rw [create_ok_elim now title description userId startDate deadline t h]
  refine ⟨rfl, ?_, ?_⟩ <;>
    by_cases hc : startDate.getD now > now <;>
      simp [hc, TaskStatus.SCHEDULED, TaskStatus.PENDING]

/-- C4 witness: creating a task at instant 0 with start date 5 (in the
future) succeeds and the resulting task is SCHEDULED, not PENDING. -/
theorem c4_initial_status_from_startDate_witness :
    c4Task.startDate = (some (5 : ℤ)).getD 0 ∧
    (c4Task.status = TaskStatus.SCHEDULED ↔ (0 : ℤ) < (some (5 : ℤ)).getD 0) ∧
    (c4Task.status = TaskStatus.PENDING ↔ ¬ (0 : ℤ) < (some (5 : ℤ)).getD 0) :=
  c4_initial_status_from_startDate 0 ("Trip") none ("u") (some 5) none c4Task (by decide)

/-- C5: with no deadline the progress percentage is null; with a deadline
it always exists and lies between 0 and 100, it is 100 whenever the status
is COMPLETED or the deadline has been reached, it is 0 when (the task not
being COMPLETED and the deadline not yet reached) the current instant is
at or before the start date, and otherwise it is the rounded percentage of
elapsed time — the clauses applying in this order, as in the source's
early-return chain. -/
theorem c5_progress_percentage_cases (t : Task) (now : ℤ) :
    (t.deadline = none → t.getProgressPercentage now = none) ∧
    (∀ dl, t.deadline = some dl → ∃ r, t.getProgressPercentage now = some r) ∧
    (∀ dl r, t.deadline = some dl → t.getProgressPercentage now = some r →
      (0 ≤ r ∧ r ≤ 100) ∧
      ((t.status = TaskStatus.COMPLETED ∨ dl ≤ now) → r = 100) ∧
      ((t.status ≠ TaskStatus.COMPLETED ∧ now < dl ∧ now ≤ t.startDate) → r = 0) ∧
      ((t.status ≠ TaskStatus.COMPLETED ∧ now < dl ∧ t.startDate < now) →
        r = jsRound (((now - t.startDate : ℤ) : ℚ) / ((dl - t.startDate : ℤ) : ℚ) * 100))) := by
  refine ⟨fun hd => ?_, fun dl hd => ?_, fun dl r hd hr => ?_⟩
  · simp [Task.getProgressPercentage, hd]
  · simp only [Task.getProgressPercentage, hd]
    split_ifs <;> exact ⟨_, rfl⟩
  · simp only [Task.getProgressPercentage, hd] at hr
    split_ifs at hr with hC hG hL
    · rw [Option.some.injEq] at hr
      subst hr
      refine ⟨by omega, fun _ => rfl, fun hx => absurd hC hx.1, fun hx => absurd hC hx.1⟩
    · rw [Option.some.injEq] at hr
      subst hr
      refine ⟨by omega, fun _ => rfl, fun hx => by omega, fun hx => by omega⟩
    · rw [Option.some.injEq] at hr
      subst hr
      refine ⟨by omega, fun hx => ?_, fun _ => rfl, fun hx => by omega⟩
      rcases hx with hx | hx
      · exact absurd hx hC
      · omega
    · rw [Option.some.injEq] at hr
      subst hr
      have hb := jsRound_div_bounds (now - t.startDate) (dl - t.startDate)
        (by omega) (by omega)
      refine ⟨hb, fun hx => ?_, fun hx => by omega, fun hx => rfl⟩
      rcases hx with hx | hx
      · exact absurd hx hC
      · omega

/-- C6: `isOverdue` is false whenever the deadline is absent or the status
is COMPLETED; for a task with a deadline and a non-COMPLETED status it is
true exactly when the current instant is past the deadline — in
particular a FAILED or CANCELLED task with a past deadline reports
overdue. -/
theorem c6_isOverdue_cases (t : Task) (now : ℤ) :
    ((t.deadline = none ∨ t.status = TaskStatus.COMPLETED) → t.isOverdue now = false) ∧
    (∀ dl, t.deadline = some dl → t.status ≠ TaskStatus.COMPLETED →
      (t.isOverdue now = true ↔ dl < now)) ∧
    ((t.status = TaskStatus.FAILED ∨ t.status = TaskStatus.CANCELLED) →
      ∀ dl, t.deadline = some dl → dl < now → t.isOverdue now = true) := by
  refine ⟨fun hd => ?_, fun dl hd hC => ?_, fun hs dl hd hlt => ?_⟩
  · rcases hd with hd | hd
    · simp [Task.isOverdue, hd]
    · unfold Task.isOverdue
      split
      · rfl
      · rw [if_pos hd]
  · simp only [Task.isOverdue, hd, if_neg hC]
    constructor
    · intro hb
      exact of_decide_eq_true hb
    · intro hb
      exact decide_eq_true hb
  · have hC : t.status ≠ TaskStatus.COMPLETED := by
      rcases hs with h | h <;> rw [h] <;>
        simp [TaskStatus.FAILED, TaskStatus.CANCELLED, TaskStatus.COMPLETED]
    simp [Task.isOverdue, hd, hC, hlt]

/-- C7: whatever statistics record the aggregation returns, its total is
the number of post-auto-update tasks that are not CANCELLED, its completed
and failed counts are the corresponding status counts among those active
tasks, and its completion rate is round(completed / (total - failed) *
100) when total - failed is positive and 0 otherwise. -/
theorem c7_statistics_completion_rate (now : ℤ) (ts : List Task) (stats : RawStats)
    (h : calculateStatistics now ts = Except.ok stats) :
    ∃ ts2, ts.mapM (autoUpdateTask now) = Except.ok ts2 ∧
      stats.totalTasks = (ts2.filter (fun u => u.status ≠ TaskStatus.CANCELLED)).length ∧
      stats.completedTasks = ((ts2.filter (fun u => u.status ≠ TaskStatus.CANCELLED)).filter
        (fun u => u.status = TaskStatus.COMPLETED)).length ∧
      stats.failedTasks = ((ts2.filter (fun u => u.status ≠ TaskStatus.CANCELLED)).filter
        (fun u => u.status = TaskStatus.FAILED)).length ∧
      stats.completionRate =
        (if (stats.totalTasks : ℤ) - (stats.failedTasks : ℤ) > 0 then
          jsRound (((stats.completedTasks : ℤ) : ℚ) /
            ((((stats.totalTasks : ℤ) - (stats.failedTasks : ℤ)) : ℤ) : ℚ) * 100)
        else 0) := by
  rcases hm : ts.mapM (autoUpdateTask now) with e | ts2
  · simp only [calculateStatistics, Bind.bind, Except.bind, hm] at h
    exact absurd h (by simp)
  · simp only [calculateStatistics, Bind.bind, Except.bind, hm, pure, Except.pure,
      Except.ok.injEq] at h
    subst h
    exact ⟨ts2, rfl, rfl, rfl, rfl, rfl⟩

/-- C7 witness: the spec's worked example — 11 stored tasks of which one
is CANCELLED, leaving 10 in the total with 2 FAILED and 4 COMPLETED,
giving completion rate round(4 / 8 * 100) = 50. -/
theorem c7_statistics_completion_rate_witness :
    ∃ ts2, c7Tasks.mapM (autoUpdateTask 0) = Except.ok ts2 ∧
      c7Stats.totalTasks = (ts2.filter (fun u => u.status ≠ TaskStatus.CANCELLED)).length ∧
      c7Stats.completedTasks = ((ts2.filter (fun u => u.status ≠ TaskStatus.CANCELLED)).filter
        (fun u => u.status = TaskStatus.COMPLETED)).length ∧
      c7Stats.failedTasks = ((ts2.filter (fun u => u.status ≠ TaskStatus.CANCELLED)).filter
        (fun u => u.status = TaskStatus.FAILED)).length ∧
      c7Stats.completionRate =
        (if (c7Stats.totalTasks : ℤ) - (c7Stats.failedTasks : ℤ) > 0 then
          jsRound (((c7Stats.completedTasks : ℤ) : ℚ) /
            ((((c7Stats.totalTasks : ℤ) - (c7Stats.failedTasks : ℤ)) : ℤ) : ℚ) * 100)
        else 0) :=
  c7_statistics_completion_rate 0 c7Tasks c7Stats c7calc

set_option maxRecDepth 20000 in
/-- C8, as stated, is false: neither the validated constructor nor
`updateDescription` enforces any length bound on the description, so a
1001-character description is accepted and stored in full. -/
theorem c8_long_description_counterexample :
    Task.create 0 ("Quarterly report") (some c8LongDescription) ("carol") none none =
      Except.ok
        { id := none
          title := "Quarterly report"
          description := c8LongDescription
          status := TaskStatus.PENDING
          userId := "carol"
          startDate := 0
          deadline := none
          createdAt := 0
          updatedAt := 0 } ∧ 1000 < c8LongDescription.length := by
  constructor <;> decide

/-- C8 (amended): the stored description is always the trimmed argument,
defaulting to the empty string when absent, and no length bound is
enforced — whether construction succeeds never depends on the description
argument at all, and `updateDescription` accepts every input. -/
theorem c8_description_trimmed_unbounded (now : ℤ) (title : String)
    (d1 d2 : Option String) (userId : String) (sd dl : Option ℤ) (t : Task)
    (nd : Option String) :
    ((Task.create now title d1 userId sd dl).isOk =
      (Task.create now title d2 userId sd dl).isOk) ∧
    (Task.create now title d1 userId sd dl = Except.ok t →
      t.description = (d1.map jsTrim).getD ("")) ∧
    ((t.updateDescription now nd).description = (nd.map jsTrim).getD ("")) := by
  refine ⟨?_, fun h => ?_, rfl⟩
  · rw [create_isOk, create_isOk]
  · rw [create_ok_elim now title d1 userId sd dl t h]

/-- C9: the composite update is not atomic on error — updating a COMPLETED
task with a valid new title together with status PENDING (which
`updateStatus` rejects with BusinessRuleViolation) mutates the title
first and then propagates the error, leaving the task with the new title
while status, startDate, deadline and description keep their old values. -/
theorem c9_update_not_atomic :
    Task.update 5 (Task.JSArg.val ("New title")) Task.JSArg.undef
        (Task.JSArg.val TaskStatus.PENDING) Task.JSArg.undef Task.JSArg.undef c9Task =
      ({ c9Task with title := "New title", updatedAt := 5 },
        some (DomainError.businessRuleViolation
          ("Cannot change completed task back to pending. Set to In Progress first."))) := by
  decide

/-- C10: every status-changing operation that completes without error —
`updateStatus`, `markAsInProgress`, `markAsCompleted`, `markAsFailed`,
`reopen` and `cancelTask` — leaves id, title, description, userId,
startDate, deadline and createdAt untouched: the resulting state is
frame-equal to the old one outside status and updatedAt. -/
theorem c10_status_ops_frame (t : Task) (now : ℤ) (s : String) :
    (∀ t2, t.updateStatus now s = Except.ok t2 → TaskFrame t t2) ∧
    (∀ t2, t.markAsInProgress now = Except.ok t2 → TaskFrame t t2) ∧
    TaskFrame t (t.markAsCompleted now) ∧
    TaskFrame t (t.markAsFailed now) ∧
    (∀ t2, t.reopen now = Except.ok t2 → TaskFrame t t2) ∧
    TaskFrame t (t.cancelTask now) := by
  refine ⟨fun t2 h => ?_, fun t2 h => ?_, ?_, ?_, fun t2 h => ?_, ?_⟩
  · rcases hv : Task.validateStatus s with e | u
    · simp only [Task.updateStatus, Bind.bind, Except.bind, hv] at h
      exact absurd h (by simp)
    · simp only [Task.updateStatus, Bind.bind, Except.bind, hv] at h
      split at h
      · exact absurd h (by simp)
      · split at h
        · exact absurd h (by simp)
        · split at h
          · exact absurd h (by simp)
          · rw [Except.ok.injEq] at h
            exact h ▸ taskFrame_setStatus t s now
  · unfold Task.markAsInProgress at h
    split at h
    · exact absurd h (by simp)
    · rw [Except.ok.injEq] at h
      exact h ▸ taskFrame_setStatus t _ now
  · exact taskFrame_setStatus t _ now
  · unfold Task.markAsFailed
    split_ifs
    · exact taskFrame_self t
    · exact taskFrame_self t
    · exact taskFrame_setStatus t _ now
  · unfold Task.reopen at h
    split at h
    · rw [Except.ok.injEq] at h
      exact h ▸ taskFrame_setStatus t _ now
    · split at h
      · exact absurd h (by simp)
      · rw [Except.ok.injEq] at h
        exact h ▸ taskFrame_setStatus t _ now
  · unfold Task.cancelTask
    split_ifs
    · exact taskFrame_self t
    · exact taskFrame_setStatus t _ now

end JSTaskManager
